import Mathlib

/-
  Verification of `sentinel_watcher.py` (sentinel-cli).

  Shallow embedding: the script's external effects (the `gh` availability
  probe, the `gh copilot` suggestion call, the operator's typed input, the
  `aws ec2 start-instances` write call, and the cloud `describe_instances`
  read call) are supplied as explicit oracle values; the embedding records
  the argv of every executed remediation subprocess so that claims about
  "no execution call is issued" are statements about a recorded call list.
-/

namespace Sentinel

/-- Result of a `subprocess.run` invocation that has no `timeout` argument
(the `gh --version` probe and the `aws ec2 start-instances` call),
restricted to the outcomes the surrounding code handles: either the
process ran and produced a return code with captured stdout/stderr, or
the launch raised `FileNotFoundError`. For the probe this is the handled
fragment only — an exception outside the probe's
`except (CalledProcessError, FileNotFoundError)` tuple (e.g.
`PermissionError`) is modeled by `ProbeOutcome.uncaughtError` in the
extended model below; for the `aws` call the enclosing `try` catches
every `Exception`, so `launchFailure` stands for any launch error there. -/
inductive RunResult where
  | ok (returncode : Int) (stdout stderr : String)
  | launchFailure
deriving DecidableEq, Repr

/-- Result of the `gh copilot` invocation, which is run with `timeout=30`
and may therefore additionally raise `subprocess.TimeoutExpired`. -/
inductive CopilotResult where
  | ok (returncode : Int) (stdout stderr : String)
  | timeout
  | launchFailure
deriving DecidableEq, Repr

/-- Oracle for all external interactions of one `trigger_healing` run,
over the handled fragment in which the probe raises at most the
exceptions its except tuple names; `HealingEnvE` below extends it with
the out-of-tuple probe exception that escapes the function. -/
structure HealingEnv where
  ghProbe : RunResult
  copilot : CopilotResult
  userInput : String
  awsExec : RunResult
deriving DecidableEq, Repr

/-- Python `str.strip()` on a character list: whitespace removed from both
ends. -/
def pyStripChars (l : List Char) : List Char :=
  ((l.dropWhile Char.isWhitespace).reverse.dropWhile Char.isWhitespace).reverse

/-- Python `str.strip()`. -/
def pyStrip (s : String) : String :=
  ⟨pyStripChars s.data⟩

/-- Python `str.lower()` (ASCII fragment, which covers every input the
script compares against). -/
def pyLower (s : String) : String :=
  ⟨s.data.map Char.toLower⟩

/-- Possible outcomes of one `trigger_healing` run, one constructor per
terminal print statement of the function. -/
inductive HealingOutcome where
  | ghNotFound
  | copilotError (stderr : String)
  | emptySuggestion
  | skipped
  | execSucceeded
  | execFailed (stderr : String)
  | timedOut
  | errorCaught (msg : String)
deriving DecidableEq, Repr

/-- A Python exception that can escape the body of the big `try` block in
`trigger_healing`: `subprocess.TimeoutExpired` from the copilot call, or any
other `Exception` (e.g. `FileNotFoundError` from a missing executable). -/
inductive PyExn where
  | timeoutExpired
  | exception (msg : String)
deriving DecidableEq, Repr

/-- The fixed argv that `trigger_healing` executes upon approval:
`['aws', 'ec2', 'start-instances', '--instance-ids', instance_id,
'--region', 'us-east-1']`. -/
def start_instances_cmd (instance_id : String) : List String :=
  ["aws", "ec2", "start-instances", "--instance-ids", instance_id,
   "--region", "us-east-1"]

/-- Body of `trigger_healing` (the availability probe with its own
`try/except`, then the big `try` block), before the outer
`except TimeoutExpired` / `except Exception` handlers, over the handled
probe fragment (`trigger_healingE` below adds the probe exception the
except tuple does not name). Returns the not-yet-handled result together
with the list of executed remediation argvs (every `aws` subprocess
launched, in order). -/
def trigger_healing_raw (instance_id : String) (env : HealingEnv) :
    Except PyExn HealingOutcome × List (List String) :=
  match env.ghProbe with
  | .launchFailure => (.ok .ghNotFound, [])
  | .ok prc _ _ =>
    if prc ≠ 0 then (.ok .ghNotFound, [])
    else
      match env.copilot with
      | .timeout => (.error .timeoutExpired, [])
      | .launchFailure => (.error (.exception "FileNotFoundError"), [])
      | .ok crc cout cerr =>
        if crc ≠ 0 then (.ok (.copilotError (pyStrip cerr)), [])
        else
          let suggested_cmd := pyStrip cout
          if suggested_cmd = "" then (.ok .emptySuggestion, [])
          else
            let response := pyLower (pyStrip env.userInput)
            if response = "y" then
              match env.awsExec with
              | .launchFailure =>
                  (.error (.exception "FileNotFoundError"),
                   [start_instances_cmd instance_id])
              | .ok arc _ aerr =>
                if arc = 0 then
                  (.ok .execSucceeded, [start_instances_cmd instance_id])
                else
                  (.ok (.execFailed (pyStrip aerr)),
                   [start_instances_cmd instance_id])
            else (.ok .skipped, [])

/-- The outer exception handlers of `trigger_healing`: `TimeoutExpired`
prints a timeout warning, any other `Exception` prints a generic healing
error. -/
def handleExn : PyExn → HealingOutcome
  | .timeoutExpired => .timedOut
  | .exception m => .errorCaught m

/-- `trigger_healing(instance_id)`: the raw body with its exception
handlers installed, over the handled probe fragment. Yields the terminal
outcome and the recorded list of executed remediation argvs.
`trigger_healingE` below extends this to the full probe outcome space,
where an out-of-tuple probe exception escapes the function. -/
def trigger_healing (instance_id : String) (env : HealingEnv) :
    HealingOutcome × List (List String) :=
  match trigger_healing_raw instance_id env with
  | (.ok o, calls) => (o, calls)
  | (.error e, calls) => (handleExn e, calls)

/-- One EC2 instance record as consumed by the scan loop: the
`InstanceId` and the `State.Name` string. -/
structure Ec2Instance where
  instanceId : String
  state : String
deriving DecidableEq, Repr

/-- The state test performed on each instance by the scan loop:
`state == 'stopped'`. A pure function of the state string. -/
def classifyStopped (state : String) : Bool :=
  state = "stopped"

/-- Outcome of the `describe_instances` call: the nested
reservation/instance groupings on success, or one of the exceptions the
script handles (`NoCredentialsError`, `ClientError` with an error code and
message, any other `Exception`). -/
inductive ApiOutcome where
  | ok (reservations : List (List Ec2Instance))
  | noCredentialsError
  | clientError (code msg : String)
  | otherError (msg : String)
deriving DecidableEq, Repr

/-- Record of one `trigger_healing` invocation made by the scan loop. -/
structure HealingRecord where
  instanceId : String
  outcome : HealingOutcome
  calls : List (List String)
deriving DecidableEq, Repr

/-- Accumulated observable state of the scan loop: the two counters, the
ids alerted on (one ALERT line each), and the `trigger_healing`
invocations in order. -/
structure LoopState where
  totalCount : Nat
  stoppedCount : Nat
  alerts : List String
  healings : List HealingRecord
deriving DecidableEq, Repr

/-- The inner `for instance in reservation['Instances']` loop, threading
the per-instance healing oracle. Processes instances in order. -/
def processInstances (henv : String → HealingEnv) :
    List Ec2Instance → LoopState
  | [] => ⟨0, 0, [], []⟩
  | i :: rest =>
    let s := processInstances henv rest
    if classifyStopped i.state then
      let r := trigger_healing i.instanceId (henv i.instanceId)
      ⟨s.totalCount + 1, s.stoppedCount + 1, i.instanceId :: s.alerts,
        ⟨i.instanceId, r.1, r.2⟩ :: s.healings⟩
    else
      ⟨s.totalCount + 1, s.stoppedCount, s.alerts, s.healings⟩

/-- Pointwise combination of loop states, used to sequence the outer
`for reservation in response['Reservations']` loop. -/
def LoopState.append (a b : LoopState) : LoopState :=
  ⟨a.totalCount + b.totalCount, a.stoppedCount + b.stoppedCount,
    a.alerts ++ b.alerts, a.healings ++ b.healings⟩

/-- The outer loop over reservations. -/
def processReservations (henv : String → HealingEnv) :
    List (List Ec2Instance) → LoopState
  | [] => ⟨0, 0, [], []⟩
  | r :: rest => (processInstances henv r).append (processReservations henv rest)

/-- Result of `check_ec2_instances`: either the scan ran to completion
(the summary line is printed and `stopped_count` is returned to `main`),
or one of the `except` branches printed to stderr and called
`sys.exit(1)`. The exceptions all arise at the `describe_instances` call,
before any alert or healing, so `exited` carries no loop state. -/
inductive ScanOutcome where
  | completed (summary : LoopState)
  | exited (code : Nat) (errMsg : String)
deriving DecidableEq, Repr

/-- The healing invocations performed during a scan: none when the scan
exited (every handled exception is raised by `describe_instances`,
before the loop starts). -/
def scanHealings : ScanOutcome → List HealingRecord
  | .completed s => s.healings
  | .exited _ _ => []

/-- `check_ec2_instances(mock_mode)`. In mock mode no API call is made:
the fixed instance `sentinel-test-vm` is alerted, healed, and counted as
`1 instance checked, 1 stopped`, and 1 is returned. Otherwise the
`describe_instances` outcome is scanned or its exception handled. -/
def check_ec2_instances (mock_mode : Bool) (henv : String → HealingEnv)
    (api : ApiOutcome) : ScanOutcome :=
  if mock_mode then
    let r := trigger_healing "sentinel-test-vm" (henv "sentinel-test-vm")
    .completed ⟨1, 1, ["sentinel-test-vm"],
      [⟨"sentinel-test-vm", r.1, r.2⟩]⟩
  else
    match api with
    | .ok reservations => .completed (processReservations henv reservations)
    | .noCredentialsError =>
        .exited 1 "AWS credentials not found. Please configure AWS CLI or set environment variables."
    | .clientError code msg =>
        if code = "UnauthorizedOperation" then
          .exited 1 "Not authorized to describe EC2 instances in us-east-1."
        else
          .exited 1 ("AWS API error - " ++ msg)
    | .otherError msg => .exited 1 ("Unexpected error - " ++ msg)

/-- Process exit code of `main`: `sys.exit(1)` from an exception handler,
otherwise `main` returns normally after its final status line and the
process exits 0. -/
def mainExit (mock_mode : Bool) (henv : String → HealingEnv)
    (api : ApiOutcome) : Nat :=
  match check_ec2_instances mock_mode henv api with
  | .completed _ => 0
  | .exited code _ => code

/-- The healing records a scan produces for a given list of stopped ids. -/
def healingsFor (henv : String → HealingEnv) (ids : List String) :
    List HealingRecord :=
  ids.map fun id =>
    let r := trigger_healing id (henv id)
    ⟨id, r.1, r.2⟩

/-- The guard chain that must pass before `trigger_healing` reaches the
`aws ec2 start-instances` subprocess: probe succeeded, copilot call
succeeded with a nonempty stripped suggestion, and the stripped,
lowercased operator input equals the accepted token `y`. -/
def execIssued (env : HealingEnv) : Bool :=
  match env.ghProbe with
  | .launchFailure => false
  | .ok prc _ _ =>
    if prc ≠ 0 then false
    else
      match env.copilot with
      | .timeout => false
      | .launchFailure => false
      | .ok crc cout _ =>
        if crc ≠ 0 then false
        else if pyStrip cout = "" then false
        else pyLower (pyStrip env.userInput) == "y"

/-- Outcomes that the script reports with a warning line and that leave
the instance unremediated. -/
def warningOutcome : HealingOutcome → Bool
  | .ghNotFound => true
  | .copilotError _ => true
  | .emptySuggestion => true
  | .timedOut => true
  | _ => false

/-- The four suggestion-stage failure modes: suggestion tool unreachable
at the availability probe (launch failure or nonzero probe exit), timeout
of the tool invocation, nonzero tool exit, or an empty (whitespace-only)
suggestion. -/
def suggestionStageFailure (env : HealingEnv) : Bool :=
  (match env.ghProbe with
   | .launchFailure => true
   | .ok prc _ _ => prc ≠ 0)
  || (match env.copilot with
      | .timeout => true
      | .launchFailure => false
      | .ok crc cout _ => crc ≠ 0 || pyStrip cout = "")

/- ### Extended model: the probe exception the except tuple does not name

The availability probe `subprocess.run(['gh', '--version'], ...,
check=True)` is guarded only by
`except (subprocess.CalledProcessError, FileNotFoundError)`, and it
precedes the big `try` block. Any other exception it raises — e.g.
`PermissionError` when a `gh` entry on PATH exists but is not executable
— is caught by no handler in `trigger_healing` and propagates to the
caller. The definitions below extend the model with that path. -/

/-- Probe outcome over the full exception space: success, the handled
`FileNotFoundError`, or an exception the probe's except tuple does not
name (e.g. `PermissionError`), which no handler in `trigger_healing`
catches. -/
inductive ProbeOutcome where
  | ok (returncode : Int) (stdout stderr : String)
  | launchFailure
  | uncaughtError (msg : String)
deriving DecidableEq, Repr

/-- Healing oracle over the full probe outcome space. -/
structure HealingEnvE where
  ghProbe : ProbeOutcome
  copilot : CopilotResult
  userInput : String
  awsExec : RunResult
deriving DecidableEq, Repr

/-- Embeds a handled-fragment healing oracle into the full space. -/
def HealingEnv.toE (env : HealingEnv) : HealingEnvE :=
  ⟨match env.ghProbe with
    | .ok rc o e => .ok rc o e
    | .launchFailure => .launchFailure,
   env.copilot, env.userInput, env.awsExec⟩

/-- `trigger_healing` over the full probe outcome space: an exception the
probe's except tuple does not name propagates out of the function
(`.error`, carrying the exception's message), because the probe call
precedes the big `try` block; on every other probe outcome the
handled-fragment semantics applies unchanged. -/
def trigger_healingE (instance_id : String) (env : HealingEnvE) :
    Except String (HealingOutcome × List (List String)) :=
  match env.ghProbe with
  | .uncaughtError msg => .error msg
  | .launchFailure =>
      .ok (trigger_healing instance_id
        ⟨.launchFailure, env.copilot, env.userInput, env.awsExec⟩)
  | .ok prc pout perr =>
      .ok (trigger_healing instance_id
        ⟨.ok prc pout perr, env.copilot, env.userInput, env.awsExec⟩)

/-- The scan's inner loop over the full probe outcome space: an exception
escaping `trigger_healing` aborts the loop before the remaining instances
are processed and is re-raised to the scanner's own handlers. -/
def processInstancesE (henv : String → HealingEnvE) :
    List Ec2Instance → Except String LoopState
  | [] => .ok ⟨0, 0, [], []⟩
  | i :: rest =>
    if classifyStopped i.state then
      match trigger_healingE i.instanceId (henv i.instanceId) with
      | .error msg => .error msg
      | .ok r =>
        match processInstancesE henv rest with
        | .error msg => .error msg
        | .ok s =>
          .ok ⟨s.totalCount + 1, s.stoppedCount + 1,
               i.instanceId :: s.alerts,
               ⟨i.instanceId, r.1, r.2⟩ :: s.healings⟩
    else
      match processInstancesE henv rest with
      | .error msg => .error msg
      | .ok s => .ok ⟨s.totalCount + 1, s.stoppedCount, s.alerts, s.healings⟩

/-- The scan's outer loop over the full probe outcome space. -/
def processReservationsE (henv : String → HealingEnvE) :
    List (List Ec2Instance) → Except String LoopState
  | [] => .ok ⟨0, 0, [], []⟩
  | r :: rest =>
      match processInstancesE henv r with
      | .error msg => .error msg
      | .ok a =>
        match processReservationsE henv rest with
        | .error msg => .error msg
        | .ok b => .ok (a.append b)

/-- Result of `check_ec2_instances` over the full probe outcome space. A
healing escape inside the non-mock loop is swallowed by the scanner's
`except Exception` handler, which prints the unexpected-error message and
exits 1 with the summary never printed; in mock mode the healing call
sits before the `try` block, so an escape leaves the scanner as an
unhandled exception (`uncaught`). -/
inductive ScanOutcomeE where
  | completed (summary : LoopState)
  | exited (code : Nat) (errMsg : String)
  | uncaught (msg : String)
deriving DecidableEq, Repr

/-- `check_ec2_instances(mock_mode)` over the full probe outcome space. -/
def check_ec2_instancesE (mock_mode : Bool) (henv : String → HealingEnvE)
    (api : ApiOutcome) : ScanOutcomeE :=
  if mock_mode then
    match trigger_healingE "sentinel-test-vm" (henv "sentinel-test-vm") with
    | .error msg => .uncaught msg
    | .ok r =>
        .completed ⟨1, 1, ["sentinel-test-vm"],
          [⟨"sentinel-test-vm", r.1, r.2⟩]⟩
  else
    match api with
    | .ok reservations =>
        match processReservationsE henv reservations with
        | .error msg => .exited 1 ("Unexpected error - " ++ msg)
        | .ok s => .completed s
    | .noCredentialsError =>
        .exited 1 "AWS credentials not found. Please configure AWS CLI or set environment variables."
    | .clientError code msg =>
        if code = "UnauthorizedOperation" then
          .exited 1 "Not authorized to describe EC2 instances in us-east-1."
        else
          .exited 1 ("AWS API error - " ++ msg)
    | .otherError msg => .exited 1 ("Unexpected error - " ++ msg)

theorem trigger_healing_snd (instance_id : String) (env : HealingEnv) :
    (trigger_healing instance_id env).2 = (trigger_healing_raw instance_id env).2 := by
  unfold trigger_healing
  rcases h : trigger_healing_raw instance_id env with ⟨r, calls⟩
  cases r <;> simp

theorem raw_calls_eq (instance_id : String) (env : HealingEnv) :
    (trigger_healing_raw instance_id env).2 =
      if execIssued env then [start_instances_cmd instance_id] else [] := by
  obtain ⟨probe, cop, inp, aws⟩ := env
  unfold trigger_healing_raw execIssued
  cases probe with
  | launchFailure => simp
  | ok prc pout perr =>
    by_cases hp : prc ≠ 0
    · simp [hp]
    · simp only [hp, if_false]
      cases cop with
      | timeout => simp
      | launchFailure => simp
      | ok crc cout cerr =>
        by_cases hc : crc ≠ 0
        · simp [hc]
        · simp only [hc, if_false]
          by_cases he : pyStrip cout = ""
          · simp [he]
          · simp only [he, if_false]
            by_cases hr : pyLower (pyStrip inp) = "y"
            · cases aws with
              | launchFailure => simp [hr]
              | ok arc aout aerr =>
                by_cases ha : arc = 0 <;> simp [hr, ha]
            · simp [hr]

theorem trigger_healing_calls (instance_id : String) (env : HealingEnv) :
    (trigger_healing instance_id env).2 =
      if execIssued env then [start_instances_cmd instance_id] else [] := by
  rw [trigger_healing_snd, raw_calls_eq]

theorem healing_on_failure (instance_id : String) (env : HealingEnv)
    (h : suggestionStageFailure env = true) :
    warningOutcome (trigger_healing instance_id env).1 = true ∧
    (trigger_healing instance_id env).2 = [] := by
  obtain ⟨probe, cop, inp, aws⟩ := env
  simp only [suggestionStageFailure, Bool.or_eq_true] at h
  cases probe with
  | launchFailure =>
      exact ⟨by simp [trigger_healing, trigger_healing_raw, warningOutcome],
             by simp [trigger_healing, trigger_healing_raw]⟩
  | ok prc pout perr =>
    cases cop with
    | timeout =>
      by_cases hp : prc = 0
      · constructor <;>
          simp [trigger_healing, trigger_healing_raw, handleExn, warningOutcome,
                hp]
      · constructor <;>
          simp [trigger_healing, trigger_healing_raw, warningOutcome, hp]
    | launchFailure =>
      by_cases hp : prc = 0
      · simp [hp] at h
      · constructor <;>
          simp [trigger_healing, trigger_healing_raw, warningOutcome, hp]
    | ok crc cout cerr =>
      by_cases hp : prc = 0
      · simp [hp] at h
        by_cases hcrc : crc = 0
        · have hco : pyStrip cout = "" := by
            rcases h with h | h
            · exact absurd hcrc h
            · exact h
          constructor <;>
            simp [trigger_healing, trigger_healing_raw, warningOutcome, hp,
                  hcrc, hco]
        · constructor <;>
            simp [trigger_healing, trigger_healing_raw, warningOutcome, hp,
                  hcrc]
      · constructor <;>
          simp [trigger_healing, trigger_healing_raw, warningOutcome, hp]

theorem processInstances_closed (henv : String → HealingEnv)
    (l : List Ec2Instance) :
    processInstances henv l =
      ⟨l.length,
       (l.filter fun i => classifyStopped i.state).length,
       (l.filter fun i => classifyStopped i.state).map Ec2Instance.instanceId,
       healingsFor henv
         ((l.filter fun i => classifyStopped i.state).map Ec2Instance.instanceId)⟩ := by
  induction l with
  | nil => rfl
  | cons i rest ih =>
    by_cases h : classifyStopped i.state
    · simp [processInstances, ih, h, healingsFor, List.filter_cons]
    · simp [processInstances, ih, h, List.filter_cons]

theorem processReservations_closed (henv : String → HealingEnv)
    (res : List (List Ec2Instance)) :
    processReservations henv res = processInstances henv res.flatten := by
  induction res with
  | nil => rfl
  | cons r rest ih =>
    simp only [processReservations, ih, List.flatten_cons]
    rw [processInstances_closed, processInstances_closed,
        processInstances_closed]
    simp [LoopState.append, healingsFor, List.filter_append]

theorem execIssued_false_of_input (env : HealingEnv)
    (h : pyLower (pyStrip env.userInput) ≠ "y") :
    execIssued env = false := by
  unfold execIssued
  cases hp : env.ghProbe with
  | launchFailure => rfl
  | ok prc pout perr =>
    dsimp only
    by_cases h1 : prc ≠ 0
    · rw [if_pos h1]
    · rw [if_neg h1]
      cases hc : env.copilot with
      | timeout => rfl
      | launchFailure => rfl
      | ok crc cout cerr =>
        dsimp only
        by_cases h2 : crc ≠ 0
        · rw [if_pos h2]
        · rw [if_neg h2]
          by_cases h3 : pyStrip cout = ""
          · rw [if_pos h3]
          · rw [if_neg h3]
            simp [h]

theorem healingsFor_map_instanceId (henv : String → HealingEnv)
    (ids : List String) :
    (healingsFor henv ids).map HealingRecord.instanceId = ids := by
  induction ids with
  | nil => rfl
  | cons a l ih =>
    simp only [healingsFor, List.map_cons] at ih ⊢
    rw [ih]

theorem healingsFor_length (henv : String → HealingEnv)
    (ids : List String) :
    (healingsFor henv ids).length = ids.length := by
  simp [healingsFor]

theorem trigger_healingE_toE (instance_id : String) (env : HealingEnv) :
    trigger_healingE instance_id env.toE =
      .ok (trigger_healing instance_id env) := by
  obtain ⟨probe, cop, inp, aws⟩ := env
  cases probe <;> rfl

theorem trigger_healingE_ok (instance_id : String) (env : HealingEnvE)
    (h : ∀ msg, env.ghProbe ≠ ProbeOutcome.uncaughtError msg) :
    ∃ r, trigger_healingE instance_id env = .ok r := by
  unfold trigger_healingE
  cases hp : env.ghProbe with
  | uncaughtError msg => exact absurd hp (h msg)
  | launchFailure => exact ⟨_, rfl⟩
  | ok prc pout perr => exact ⟨_, rfl⟩

theorem processInstancesE_ok (henv : String → HealingEnvE)
    (h : ∀ id msg, (henv id).ghProbe ≠ ProbeOutcome.uncaughtError msg)
    (l : List Ec2Instance) :
    ∃ s, processInstancesE henv l = .ok s := by
  induction l with
  | nil => exact ⟨_, rfl⟩
  | cons i rest ih =>
    obtain ⟨s, hs⟩ := ih
    by_cases hc : classifyStopped i.state = true
    · obtain ⟨r, hr⟩ := trigger_healingE_ok i.instanceId (henv i.instanceId)
        (h i.instanceId)
      refine ⟨⟨s.totalCount + 1, s.stoppedCount + 1,
        i.instanceId :: s.alerts,
        ⟨i.instanceId, r.1, r.2⟩ :: s.healings⟩, ?_⟩
      simp [processInstancesE, hc, hr, hs]
    · refine ⟨⟨s.totalCount + 1, s.stoppedCount, s.alerts, s.healings⟩, ?_⟩
      simp [processInstancesE, hc, hs]

theorem processReservationsE_ok (henv : String → HealingEnvE)
    (h : ∀ id msg, (henv id).ghProbe ≠ ProbeOutcome.uncaughtError msg)
    (res : List (List Ec2Instance)) :
    ∃ s, processReservationsE henv res = .ok s := by
  induction res with
  | nil => exact ⟨_, rfl⟩
  | cons r rest ih =>
    obtain ⟨b, hb⟩ := ih
    obtain ⟨a, ha⟩ := processInstancesE_ok henv h r
    refine ⟨a.append b, ?_⟩
    simp [processReservationsE, ha, hb]

/- ### Concrete fixtures used by the claim theorems -/

/-- An operator run where every external step succeeds and the typed
input is the uppercase "Y". -/
def envY : HealingEnv :=
  ⟨.ok 0 "gh version 2.40" "",
   .ok 0 "aws ec2 start-instances --instance-ids i-1 --region us-east-1" "",
   "Y", .ok 0 "" ""⟩

/-- Same run but the operator types "yes". -/
def envYes : HealingEnv :=
  ⟨.ok 0 "gh version 2.40" "",
   .ok 0 "aws ec2 start-instances --instance-ids i-1 --region us-east-1" "",
   "yes", .ok 0 "" ""⟩

/-- A healing oracle in which the `gh` probe fails (healing is skipped
with a warning before anything else happens). -/
def henv0 : String → HealingEnv :=
  fun _ => ⟨.launchFailure, .timeout, "", .launchFailure⟩

/-- A healing run in which the probe succeeds and the copilot call times
out. -/
def envTimeout : HealingEnv :=
  ⟨.ok 0 "gh version 2.40" "", .timeout, "y", .ok 0 "" ""⟩

/-- The instance list of the documented scan scenario. -/
def scenarioInstances : List (List Ec2Instance) :=
  [[⟨"i-1", "running"⟩, ⟨"i-2", "stopped"⟩, ⟨"i-3", "stopped"⟩]]

/-- A healing run whose probe raises `PermissionError`, an exception the
probe's except tuple does not name, with every later stage set up to
succeed. -/
def envPerm : HealingEnvE :=
  ⟨.uncaughtError "[Errno 13] Permission denied: 'gh'",
   .ok 0 "aws ec2 start-instances --instance-ids i-2 --region us-east-1" "",
   "y", .ok 0 "" ""⟩

/-- The probe raises `PermissionError` on every instance. -/
def henvPerm : String → HealingEnvE := fun _ => envPerm

/-- An extended healing oracle whose probe raises only the handled
`FileNotFoundError`. -/
def henvE0 : String → HealingEnvE :=
  fun _ => ⟨.launchFailure, .timeout, "", .launchFailure⟩

/- ### Claim theorems -/

/-- C1 counterexample: the claim is false as stated. With every
suggestion-stage step succeeding and the operator typing "Y" — which is
not an exact match of the accepted affirmative token "y" — the script
still issues the start-instance execution call, because the code
lowercases the stripped input before comparing it to "y". -/
theorem C1_counterexample :
    envY.userInput ≠ "y" ∧
    (trigger_healing "i-1" envY).2 = [start_instances_cmd "i-1"] := by
  decide

/-- C1 (amended): the execution call is gated on the operator's input
normalized by whitespace-strip and lowercase equalling "y". For every
suggested command and every input whose normalized form differs from "y"
— including "yes", the empty string, and "n" — no execution call is
issued and the instance is skipped; case or whitespace variants of "y",
such as "Y", do trigger execution. -/
theorem C1_approval_gate (instance_id : String) (env : HealingEnv)
    (h : pyLower (pyStrip env.userInput) ≠ "y") :
    (trigger_healing instance_id env).2 = [] := by
  rw [trigger_healing_calls, execIssued_false_of_input env h]
  simp

/-- C1 witness: with the operator typing "yes" (which does not normalize
to "y"), a fully successful suggestion run issues no execution call. -/
theorem C1_approval_gate_witness :
    pyLower (pyStrip envYes.userInput) ≠ "y" ∧
    (trigger_healing "i-1" envYes).2 = [] :=
  ⟨by decide, C1_approval_gate "i-1" envYes (by decide)⟩

/-- C2 counterexample: the claim is false as stated. A scan over one
instance whose lifecycle-state string "hibernated" is outside the
recognized enum completes without any error and silently classifies the
instance as not-stopped (stopped count 0, no alert, no healing). -/
theorem C2_counterexample :
    check_ec2_instances false henv0
      (.ok [[⟨"i-x", "hibernated"⟩]]) = .completed ⟨1, 0, [], []⟩ := by
  decide

/-- C2 (amended): classification is a pure function of the state string
(the test `state == "stopped"`), but an unrecognized state string does
not yield an error: a scan over an instance with any state string other
than "stopped" — recognized or not — completes normally and silently
treats the instance as not-stopped. -/
theorem C2_unknown_state_silent (henv : String → HealingEnv)
    (i : Ec2Instance) (h : i.state ≠ "stopped") :
    check_ec2_instances false henv (.ok [[i]]) = .completed ⟨1, 0, [], []⟩ ∧
    classifyStopped i.state = false := by
  have hc : classifyStopped i.state = false := by
    simp [classifyStopped, h]
  constructor
  · have hdef : check_ec2_instances false henv (.ok [[i]]) =
        .completed (processReservations henv [[i]]) := rfl
    rw [hdef, processReservations_closed, processInstances_closed]
    simp [hc, healingsFor]
  · exact hc

/-- C2 witness: an instance in the recognized non-stopped state "pending"
is classified not-stopped and the scan completes without error. -/
theorem C2_unknown_state_silent_witness :
    (⟨"i-x", "pending"⟩ : Ec2Instance).state ≠ "stopped" ∧
    (check_ec2_instances false henv0 (.ok [[⟨"i-x", "pending"⟩]]) =
        .completed ⟨1, 0, [], []⟩ ∧
      classifyStopped (⟨"i-x", "pending"⟩ : Ec2Instance).state = false) :=
  ⟨by decide, C2_unknown_state_silent henv0 ⟨"i-x", "pending"⟩ (by decide)⟩

/-- C3: upon approval, the executed action is the fixed, parameterized
start-instance argv bound to the exact instance id and the region
us-east-1: every executed call equals that argv, and two runs that differ
only in the (nonempty) suggested command text issue identical execution
calls — the literal suggested text is never executed. -/
theorem C3_fixed_action (instance_id : String) (probe : RunResult)
    (inp : String) (aws : RunResult) (s₁ s₂ e : String)
    (h₁ : pyStrip s₁ ≠ "") (h₂ : pyStrip s₂ ≠ "") :
    (trigger_healing instance_id ⟨probe, .ok 0 s₁ e, inp, aws⟩).2 =
      (trigger_healing instance_id ⟨probe, .ok 0 s₂ e, inp, aws⟩).2 ∧
    ∀ c ∈ (trigger_healing instance_id ⟨probe, .ok 0 s₁ e, inp, aws⟩).2,
      c = start_instances_cmd instance_id := by
  have key : execIssued ⟨probe, .ok 0 s₁ e, inp, aws⟩ =
      execIssued ⟨probe, .ok 0 s₂ e, inp, aws⟩ := by
    simp only [execIssued]
    cases probe with
    | launchFailure => rfl
    | ok prc pout perr =>
      dsimp only
      by_cases hp : prc ≠ 0
      · rw [if_pos hp, if_pos hp]
      · rw [if_neg hp, if_neg hp]
        have h0 : ¬((0 : Int) ≠ 0) := by simp
        rw [if_neg h0, if_neg h0, if_neg h₁, if_neg h₂]
  constructor
  · rw [trigger_healing_calls, trigger_healing_calls, key]
  · rw [trigger_healing_calls]
    by_cases hE : execIssued ⟨probe, .ok 0 s₁ e, inp, aws⟩ = true <;>
      simp [hE]

/-- C3 witness: two runs whose suggestions are the distinct texts
"start it" and "rm -rf everything" issue the same single fixed
start-instance call for i-1. -/
theorem C3_fixed_action_witness :
    pyStrip "start it" ≠ "" ∧ pyStrip "rm -rf everything" ≠ "" ∧
    ((trigger_healing "i-1"
        ⟨.ok 0 "gh version 2.40" "", .ok 0 "start it" "", "y",
         .ok 0 "" ""⟩).2 =
      (trigger_healing "i-1"
        ⟨.ok 0 "gh version 2.40" "", .ok 0 "rm -rf everything" "", "y",
         .ok 0 "" ""⟩).2 ∧
     ∀ c ∈ (trigger_healing "i-1"
        ⟨.ok 0 "gh version 2.40" "", .ok 0 "start it" "", "y",
         .ok 0 "" ""⟩).2, c = start_instances_cmd "i-1") :=
  ⟨by decide, by decide,
   C3_fixed_action "i-1" (.ok 0 "gh version 2.40" "") "y" (.ok 0 "" "")
     "start it" "rm -rf everything" "" (by decide) (by decide)⟩

/-- C4: for every fetched instance list the scan's stopped count is the
number of instances whose state is "stopped" and the total count is the
length of the flattened list, with one alert and one remediation attempt
per stopped instance in discovery order; on the list
[("i-1","running"), ("i-2","stopped"), ("i-3","stopped")] the scan yields
total 3 and stopped ["i-2","i-3"] with exactly two remediation attempts,
for i-2 then i-3 in that order. -/
theorem C4_scan_counts (henv : String → HealingEnv)
    (res : List (List Ec2Instance)) :
    check_ec2_instances false henv (.ok res) =
      .completed
        ⟨res.flatten.length,
         (res.flatten.filter fun i => classifyStopped i.state).length,
         (res.flatten.filter fun i => classifyStopped i.state).map
           Ec2Instance.instanceId,
         healingsFor henv
           ((res.flatten.filter fun i => classifyStopped i.state).map
             Ec2Instance.instanceId)⟩ ∧
    check_ec2_instances false henv0 (.ok scenarioInstances) =
      .completed ⟨3, 2, ["i-2", "i-3"],
        [⟨"i-2", .ghNotFound, []⟩, ⟨"i-3", .ghNotFound, []⟩]⟩ := by
  constructor
  · have hdef : check_ec2_instances false henv (.ok res) =
        .completed (processReservations henv res) := rfl
    rw [hdef, processReservations_closed, processInstances_closed]
  · decide

/-- C5: in mock mode the scan result is independent of the cloud API
oracle (no describe-instances interaction occurs), and it reports exactly
one checked and one stopped instance with the fixed identifier
sentinel-test-vm, returning stopped count 1. -/
theorem C5_mock_scan (henv : String → HealingEnv) (api api' : ApiOutcome) :
    check_ec2_instances true henv api = check_ec2_instances true henv api' ∧
    ∃ hr : HealingRecord,
      hr.instanceId = "sentinel-test-vm" ∧
      check_ec2_instances true henv api =
        .completed ⟨1, 1, ["sentinel-test-vm"], [hr]⟩ :=
  ⟨rfl,
   ⟨"sentinel-test-vm",
    (trigger_healing "sentinel-test-vm" (henv "sentinel-test-vm")).1,
    (trigger_healing "sentinel-test-vm" (henv "sentinel-test-vm")).2⟩,
   rfl, rfl⟩

/-- C6: when credentials are absent during a non-mock scan, the scan ends
in the `NoCredentialsError` handler with its stderr message and exit code
1, and no remediation attempt is made: no healing record is produced, so
no suggestion-tool invocation and no execution call occurs. -/
theorem C6_no_credentials (henv : String → HealingEnv) :
    check_ec2_instances false henv .noCredentialsError =
      .exited 1 "AWS credentials not found. Please configure AWS CLI or set environment variables." ∧
    mainExit false henv .noCredentialsError = 1 ∧
    scanHealings (check_ec2_instances false henv .noCredentialsError) = [] :=
  ⟨rfl, rfl, rfl⟩

/-- C7: the process exit code is 0 whenever the scan completes (for every
fetched instance list, stopped instances included) and 1 on
authentication, authorization (any ClientError), or unexpected errors
during the scan. -/
theorem C7_exit_codes (henv : String → HealingEnv)
    (res : List (List Ec2Instance)) (code msg emsg : String) :
    mainExit false henv (.ok res) = 0 ∧
    mainExit false henv .noCredentialsError = 1 ∧
    mainExit false henv (.clientError code msg) = 1 ∧
    mainExit false henv (.otherError emsg) = 1 := by
  refine ⟨rfl, rfl, ?_, rfl⟩
  by_cases h : code = "UnauthorizedOperation" <;>
    simp [mainExit, check_ec2_instances, h]

/-- C8: every suggestion-stage failure — unreachable tool at the
availability probe, nonzero tool exit, empty suggestion, or tool timeout
— yields a warning outcome and no execution call for that instance, and a
scan in which every instance's suggestion stage fails still processes the
whole instance list, each stopped instance ending in a warning with no
execution call. -/
theorem C8_suggestion_failures (instance_id : String) (env : HealingEnv)
    (res : List (List Ec2Instance))
    (h : suggestionStageFailure env = true) :
    warningOutcome (trigger_healing instance_id env).1 = true ∧
    (trigger_healing instance_id env).2 = [] ∧
    ∃ s : LoopState,
      check_ec2_instances false (fun _ => env) (.ok res) = .completed s ∧
      s.totalCount = res.flatten.length ∧
      ∀ hr ∈ s.healings,
        warningOutcome hr.outcome = true ∧ hr.calls = [] := by
  obtain ⟨h1, h2⟩ := healing_on_failure instance_id env h
  refine ⟨h1, h2, processReservations (fun _ => env) res, rfl, ?_, ?_⟩
  · rw [processReservations_closed, processInstances_closed]
  · intro hr hmem
    rw [processReservations_closed, processInstances_closed] at hmem
    simp only [healingsFor, List.mem_map] at hmem
    obtain ⟨id, _, hid⟩ := hmem
    obtain ⟨w1, w2⟩ := healing_on_failure id env h
    rw [← hid]
    exact ⟨w1, w2⟩

/-- C8 witness: with the copilot call timing out on every instance, the
scenario scan still processes all three instances, and both stopped
instances end in a warning with no execution call. -/
theorem C8_suggestion_failures_witness :
    suggestionStageFailure envTimeout = true ∧
    (warningOutcome (trigger_healing "i-2" envTimeout).1 = true ∧
     (trigger_healing "i-2" envTimeout).2 = [] ∧
     ∃ s : LoopState,
       check_ec2_instances false (fun _ => envTimeout)
           (.ok scenarioInstances) = .completed s ∧
       s.totalCount = scenarioInstances.flatten.length ∧
       ∀ hr ∈ s.healings,
         warningOutcome hr.outcome = true ∧ hr.calls = []) :=
  ⟨by decide,
   C8_suggestion_failures "i-2" envTimeout scenarioInstances (by decide)⟩

/-- C9 counterexample: the claim is false as stated. A `PermissionError`
raised by the probe's `subprocess.run` is named by neither handler (the
probe's except tuple catches only `CalledProcessError` and
`FileNotFoundError`, and the probe precedes the big `try` block), so it
propagates out of `trigger_healing`; on the scenario list — which
contains stopped instances — the scan loop aborts at the first stopped
instance through the scanner's `except Exception` handler with exit code
1, and the summary line is never printed. -/
theorem C9_counterexample :
    trigger_healingE "i-2" envPerm =
      .error "[Errno 13] Permission denied: 'gh'" ∧
    check_ec2_instancesE false henvPerm (.ok scenarioInstances) =
      .exited 1 "Unexpected error - [Errno 13] Permission denied: 'gh'" :=
  ⟨rfl, rfl⟩

/-- C9 (amended): `trigger_healing` propagates no exception raised inside
its `try` block — the copilot timeout, launch failures of the copilot or
aws subprocesses, and failed start executions are all caught by its
handlers, preserving the calls already made — and every scan whose
healing runs raise no exception outside the probe's except tuple runs to
completion and prints its summary line; but an out-of-tuple probe
exception (e.g. `PermissionError`) does escape `trigger_healing` and
aborts the scan loop. -/
theorem C9_try_containment (instance_id : String) (env : HealingEnv)
    (e : PyExn) (calls : List (List String))
    (res : List (List Ec2Instance)) (henvE : String → HealingEnvE)
    (h : trigger_healing_raw instance_id env = (.error e, calls))
    (hprobe : ∀ id msg, (henvE id).ghProbe ≠ ProbeOutcome.uncaughtError msg) :
    trigger_healing instance_id env = (handleExn e, calls) ∧
    ∃ s : LoopState,
      check_ec2_instancesE false henvE (.ok res) = .completed s := by
  constructor
  · unfold trigger_healing
    rw [h]
  · obtain ⟨s, hs⟩ := processReservationsE_ok henvE hprobe res
    exact ⟨s, by simp [check_ec2_instancesE, hs]⟩

/-- C9 witness: the copilot timeout raises `TimeoutExpired` inside the
`try` block and is caught and mapped to the timed-out outcome, and the
scenario scan under an oracle whose probes raise only handled exceptions
completes. -/
theorem C9_try_containment_witness :
    trigger_healing_raw "i-1" envTimeout = (.error .timeoutExpired, []) ∧
    (∀ id msg, (henvE0 id).ghProbe ≠ ProbeOutcome.uncaughtError msg) ∧
    (trigger_healing "i-1" envTimeout = (handleExn .timeoutExpired, []) ∧
     ∃ s : LoopState,
       check_ec2_instancesE false henvE0 (.ok scenarioInstances) =
         .completed s) :=
  ⟨rfl, fun _ _ h => ProbeOutcome.noConfusion h,
   C9_try_containment "i-1" envTimeout .timeoutExpired [] scenarioInstances
     henvE0 rfl (fun _ _ h => ProbeOutcome.noConfusion h)⟩

/-- C10: an alert line and a remediation attempt are produced exactly for
the instances whose state string is the lowercase literal "stopped": the
alerted ids are the stopped ones in order, each alert is paired with one
healing invocation, the number of remediation attempts equals the
returned stopped count, and a list covering every other recognized state
plus the case variant "Stopped" produces no alert and no healing. -/
theorem C10_stopped_literal (henv : String → HealingEnv)
    (res : List (List Ec2Instance)) :
    (∃ s : LoopState,
      check_ec2_instances false henv (.ok res) = .completed s ∧
      s.alerts = (res.flatten.filter fun i => classifyStopped i.state).map
        Ec2Instance.instanceId ∧
      s.healings.map HealingRecord.instanceId = s.alerts ∧
      s.healings.length = s.stoppedCount) ∧
    check_ec2_instances false henv0
      (.ok [[⟨"a", "stopping"⟩, ⟨"b", "pending"⟩, ⟨"c", "shutting-down"⟩,
             ⟨"d", "terminated"⟩, ⟨"e", "running"⟩, ⟨"f", "Stopped"⟩]]) =
      .completed ⟨6, 0, [], []⟩ := by
  constructor
  · refine ⟨processReservations henv res, rfl, ?_, ?_, ?_⟩
    · rw [processReservations_closed, processInstances_closed]
    · rw [processReservations_closed, processInstances_closed]
      dsimp only
      rw [healingsFor_map_instanceId]
    · rw [processReservations_closed, processInstances_closed]
      dsimp only
      rw [healingsFor_length, List.length_map]
  · decide

end Sentinel
